import Mathlib

/-
Verification of the Project 5001 rate-limit-aware download scheduler.

Shallow embedding of the relevant parts of the repository:
  - src/rate_limiter.py  (RateLimitDetector: detect_rate_limit, cooldown_periods,
    is_device_in_cooldown, get_next_available_device, rotate_to_next_device,
    handle_download_failure)
  - src/database.py      (Project5001Database: add_video, get_video, video_exists,
    get_available_devices, update_device_usage, record_rate_limit)
  - src/harvester_v2.py  (AdvancedHarvester: download_video quality ladder,
    get_unseen_videos, harvest_playlist)

Modelling conventions:
  - Timestamps are natural numbers measured in minutes.  The source stores
    ISO-8601 strings produced by datetime.now().isoformat(); for such
    fixed-format strings lexicographic order coincides with chronological
    order, so the Nat order is faithful.  SQL NULL / Python None is Option.none.
  - Python float throughput values are modelled as rationals.
  - Python string containment (the `in` operator) is contiguous substring
    containment, List.IsInfix on the character lists.
  - Python str.lower is modelled by mapping Char.toLower over the character
    list (String.toLower itself is byte-positional and opaque to the kernel;
    the two agree on the ASCII data handled here).
  - Python list.sort is a stable sort by a key; any stable sort computes the
    same list, so it is modelled by List.insertionSort (which is stable).
  - SQLite tables are lists of rows in rowid (insertion) order.
-/

namespace Project5001

/-- Python `pat in s` on strings: contiguous substring containment. -/
def strContains (s pat : String) : Bool := decide (pat.data <:+: s.data)

/-- Python `s.lower()` (ASCII): lower-case every character. -/
def str_lower (s : String) : String := ⟨s.data.map Char.toLower⟩

/-- The failure kinds named by the specification (section 4.1).  The source
represents them as the string codes given by `kindCode`. -/
inductive FailureKind where
  | TooManyRequests
  | Forbidden
  | ServiceUnavailable
  | GenericFailure
  | SpeedDegraded
  | ConnectionTimeout
  | QuotaExceeded
deriving DecidableEq

/-- The string code the source uses for each spec-level failure kind
(rate_limiter.py, rate_limit_patterns / the return values of
detect_rate_limit). -/
def kindCode : FailureKind → String
  | .TooManyRequests => "http_429"
  | .Forbidden => "http_403"
  | .ServiceUnavailable => "http_503"
  | .GenericFailure => "download_failure"
  | .SpeedDegraded => "speed_drop"
  | .ConnectionTimeout => "connection_timeout"
  | .QuotaExceeded => "quota_exceeded"

/-- The HTTP-status block of RateLimitDetector.detect_rate_limit
(rate_limiter.py lines 50-57).  Python's `if http_status:` is a truthiness
test, so a supplied status of 0 skips the block exactly like None; a supplied
status outside {429, 403, 503} enters the block, matches nothing and falls
through. -/
def detectStatus (http_status : Option Nat) : Option String :=
  match http_status with
  | none => none
  | some s =>
    if s = 0 then none
    else if s = 429 then some "http_429"
    else if s = 403 then some "http_403"
    else if s = 503 then some "http_503"
    else none

/-- The error-text scan of RateLimitDetector.detect_rate_limit
(rate_limiter.py lines 59-73): the elif chain over `error_output` and
`error_lower = error_output.lower()`. -/
def detect_text_scan (error_output : String) : Option String :=
  if strContains error_output "429" ||
      strContains (str_lower error_output) "too many requests" then
    some "http_429"
  else if strContains error_output "403" ||
      strContains (str_lower error_output) "forbidden" then
    some "http_403"
  else if strContains error_output "503" ||
      strContains (str_lower error_output) "service unavailable" then
    some "http_503"
  else if strContains (str_lower error_output) "quota exceeded" ||
      strContains (str_lower error_output) "quota" then
    some "quota_exceeded"
  else if strContains (str_lower error_output) "timeout" ||
      strContains (str_lower error_output) "connection" then
    some "connection_timeout"
  else if strContains (str_lower error_output) "download failed" ||
      strContains (str_lower error_output) "failed" then
    some "download_failure"
  else none

/-- RateLimitDetector.detect_rate_limit (rate_limiter.py lines 46-79).
After the status block and the text scan, the speed check is
`if download_speed and download_speed < 10000` — a Python truthiness test,
so a speed of 0 (or None) does not fire it. -/
def detect_rate_limit (error_output : String) (http_status : Option Nat)
    (download_speed : Option ℚ) : Option String :=
  match detectStatus http_status with
  | some k => some k
  | none =>
    match detect_text_scan error_output with
    | some k => some k
    | none =>
      match download_speed with
      | some v => if v ≠ 0 ∧ v < 10000 then some "speed_drop" else none
      | none => none

/-- RateLimitDetector.cooldown_periods (rate_limiter.py lines 36-44): the
per-kind cooldown table, in minutes. -/
def cooldown_periods : String → Option Nat
  | "http_429" => some 30
  | "http_403" => some 60
  | "http_503" => some 15
  | "download_failure" => some 10
  | "speed_drop" => some 5
  | "connection_timeout" => some 5
  | "quota_exceeded" => some 120
  | _ => none

/-- Modelled from the spec (section 4.2): the cooldown table keyed by
`FailureKind`, in minutes. -/
def spec_cooldown_table : FailureKind → Nat
  | .TooManyRequests => 30
  | .Forbidden => 60
  | .ServiceUnavailable => 15
  | .GenericFailure => 10
  | .SpeedDegraded => 5
  | .ConnectionTimeout => 5
  | .QuotaExceeded => 120

/-- Modelled from the spec (section 4.1, precedence step 1): an http_status of
429/403/503 maps directly to a kind; any other value falls through. -/
def spec_status (http_status : Option Nat) : Option FailureKind :=
  if http_status = some 429 then some .TooManyRequests
  else if http_status = some 403 then some .Forbidden
  else if http_status = some 503 then some .ServiceUnavailable
  else none

/-- Modelled from the spec (section 4.1, precedence step 2): scan the
case-insensitive error text for the documented substrings, in the documented
order. -/
def spec_scan (error_text : String) : Option FailureKind :=
  if strContains (str_lower error_text) "429" ||
      strContains (str_lower error_text) "too many requests" then
    some .TooManyRequests
  else if strContains (str_lower error_text) "403" ||
      strContains (str_lower error_text) "forbidden" then
    some .Forbidden
  else if strContains (str_lower error_text) "503" ||
      strContains (str_lower error_text) "service unavailable" then
    some .ServiceUnavailable
  else if strContains (str_lower error_text) "quota" then
    some .QuotaExceeded
  else if strContains (str_lower error_text) "timeout" ||
      strContains (str_lower error_text) "connection" then
    some .ConnectionTimeout
  else if strContains (str_lower error_text) "failed" then
    some .GenericFailure
  else none

/-- One row of the `device_rotation` table (database.py, init_database).
`device_id` is the primary key. -/
structure Device where
  device_id : String
  device_name : String
  device_type : String
  is_active : Bool
  last_used : Option Nat
  rate_limit_count : Nat
  last_rate_limit : Option Nat
  cooldown_until : Option Nat
  success_count : Nat
  failure_count : Nat
deriving DecidableEq

/-- One row of the `rate_limit_events` table (database.py, init_database);
the autoincrement id is the list position. -/
structure RateLimitEvent where
  device_id : String
  event_type : String
  details : Option String
deriving DecidableEq

/-- SQL `ORDER BY last_used ASC NULLS FIRST` key: NULL sorts strictly before
every value. -/
def sqlKey (d : Device) : Nat :=
  match d.last_used with
  | none => 0
  | some t => t + 1

/-- The SQL ordering relation of get_available_devices. -/
def sqlLe (a b : Device) : Prop := sqlKey a ≤ sqlKey b

instance : DecidableRel sqlLe := fun a b => by
  unfold sqlLe
  infer_instance

instance : IsTotal Device sqlLe := ⟨by
  intro a b
  unfold sqlLe
  omega⟩

instance : IsTrans Device sqlLe := ⟨by
  intro a b c
  unfold sqlLe
  omega⟩

/-- Project5001Database.get_available_devices (database.py lines 327-360):
`SELECT ... FROM device_rotation WHERE is_active = 1 ORDER BY last_used ASC
NULLS FIRST`. -/
def get_available_devices (table : List Device) : List Device :=
  List.insertionSort sqlLe (table.filter (fun d => d.is_active))

/-- RateLimitDetector.is_device_in_cooldown (rate_limiter.py lines 86-99):
look the device up among the active devices and test
`datetime.now() < cooldown_until` (strict). -/
def is_device_in_cooldown (table : List Device) (now : Nat) (device_id : String) : Bool :=
  match (get_available_devices table).find? (fun d => d.device_id = device_id) with
  | some d =>
    match d.cooldown_until with
    | some t => decide (now < t)
    | none => false
  | none => false

/-- The Python sort key of get_next_available_device (rate_limiter.py lines
120-123): `(last_used or '1970-01-01', rate_limit_count)`, compared
lexicographically; a missing timestamp is replaced by the epoch. -/
def pyLe (a b : Device) : Prop :=
  a.last_used.getD 0 < b.last_used.getD 0 ∨
    (a.last_used.getD 0 = b.last_used.getD 0 ∧ a.rate_limit_count ≤ b.rate_limit_count)

instance : DecidableRel pyLe := fun a b => by
  unfold pyLe
  infer_instance

instance : IsTotal Device pyLe := ⟨by
  intro a b
  unfold pyLe
  omega⟩

instance : IsTrans Device pyLe := ⟨by
  intro a b c
  unfold pyLe
  omega⟩

instance : IsRefl Device pyLe := ⟨by
  intro a
  unfold pyLe
  omega⟩

/-- RateLimitDetector.get_next_available_device (rate_limiter.py lines
101-127): fetch the active devices, drop those in cooldown, stable-sort by
`(last_used or '1970-01-01', rate_limit_count)` and return the first. -/
def get_next_available_device (table : List Device) (now : Nat) : Option Device :=
  if (get_available_devices table).isEmpty then none
  else if ((get_available_devices table).filter
      (fun d => ! is_device_in_cooldown table now d.device_id)).isEmpty then none
  else
    (List.insertionSort pyLe ((get_available_devices table).filter
      (fun d => ! is_device_in_cooldown table now d.device_id))).head?

/-- Project5001Database.update_device_usage (database.py lines 362-390): both
branches set `last_used = now`; the success branch additionally increments
`success_count`, the failure branch `failure_count`. -/
def update_device_usage (table : List Device) (device_id : String) (success : Bool)
    (now : Nat) : List Device :=
  table.map (fun d =>
    if d.device_id = device_id then
      if success then
        { d with last_used := some now, success_count := d.success_count + 1 }
      else
        { d with last_used := some now, failure_count := d.failure_count + 1 }
    else d)

/-- Project5001Database.record_rate_limit (database.py lines 392-425):
increments `rate_limit_count`, sets `last_rate_limit = now` and
`cooldown_until = now + timedelta(minutes=5)` — the 5 is hard-coded,
whatever the event type — then appends a row to `rate_limit_events`. -/
def record_rate_limit (table : List Device) (events : List RateLimitEvent)
    (device_id event_type : String) (details : Option String) (now : Nat) :
    List Device × List RateLimitEvent :=
  (table.map (fun d =>
      if d.device_id = device_id then
        { d with
          rate_limit_count := d.rate_limit_count + 1
          last_rate_limit := some now
          cooldown_until := some (now + 5) }
      else d),
   events ++ [⟨device_id, event_type, details⟩])

/-- The mutable state of a RateLimitDetector together with the database
tables it touches. -/
structure DetectorState where
  devices : List Device
  events : List RateLimitEvent
  current_device_id : String
deriving DecidableEq

/-- RateLimitDetector.rotate_to_next_device (rate_limiter.py lines 129-141):
pick the next available device; on success mark it used
(`update_device_usage(..., success=True)`) and make it current. -/
def rotate_to_next_device (st : DetectorState) (now : Nat) :
    DetectorState × Option Device :=
  match get_next_available_device st.devices now with
  | some d =>
    ({ st with
        devices := update_device_usage st.devices d.device_id true now
        current_device_id := d.device_id },
     some d)
  | none => (st, none)

/-- The `details` argument passed by handle_download_failure (rate_limiter.py
line 157): `f"HTTP {http_status}" if http_status else error_output[:200]`
(truthiness again: a status of 0 selects the text). -/
def failureDetails (error_output : String) (http_status : Option Nat) : Option String :=
  match http_status with
  | some s => if s ≠ 0 then some ("HTTP " ++ toString s) else some (error_output.take 200)
  | none => some (error_output.take 200)

/-- RateLimitDetector.handle_download_failure (rate_limiter.py lines 143-176).
Returns the new state and True iff a rotation to another device happened. -/
def handle_download_failure (st : DetectorState) (rotation_enabled : Bool) (now : Nat)
    (error_output : String) (http_status : Option Nat) (download_speed : Option ℚ) :
    DetectorState × Bool :=
  match detect_rate_limit error_output http_status download_speed with
  | some kind =>
    let recorded := record_rate_limit st.devices st.events st.current_device_id kind
      (failureDetails error_output http_status) now
    let st1 : DetectorState :=
      { st with devices := recorded.1, events := recorded.2 }
    if rotation_enabled then
      match rotate_to_next_device st1 now with
      | (st2, some _) => (st2, true)
      | (st2, none) => (st2, false)
    else (st1, false)
  | none =>
    ({ st with devices := update_device_usage st.devices st.current_device_id false now },
     false)

/-- One row of the `videos` table (database.py, init_database).  `id` is the
primary key; `download_date` and `last_modified` default to the insertion
time. -/
structure VideoRow where
  id : String
  title : String
  artist : String
  filename : String
  playlist_url : String
  file_size : Option Nat
  duration : Option Nat
  quality : Option String
  download_date : Nat
  last_modified : Nat
deriving DecidableEq

/-- Project5001Database.add_video (database.py lines 107-130), the write it
performs when the store is reachable: `INSERT OR REPLACE INTO videos` on the
primary key `id` — the conflicting row, if any, is deleted and the new row
inserted. -/
def add_video (table : List VideoRow) (video_id title artist filename playlist_url : String)
    (file_size duration : Option Nat) (quality : Option String) (now : Nat) :
    List VideoRow :=
  table.filter (fun r => r.id ≠ video_id) ++
    [⟨video_id, title, artist, filename, playlist_url, file_size, duration, quality, now, now⟩]

/-- Project5001Database.add_video including its blanket `except` clause: when
the persistence layer is unavailable (`store_up = false`, e.g.
sqlite3.connect raises) the exception is caught, the failure logged, and
False returned — nothing propagates to the caller. -/
def add_video_db (store_up : Bool) (table : List VideoRow)
    (video_id title artist filename playlist_url : String)
    (file_size duration : Option Nat) (quality : Option String) (now : Nat) :
    List VideoRow × Bool :=
  if store_up then
    (add_video table video_id title artist filename playlist_url file_size duration quality now,
     true)
  else (table, false)

/-- Project5001Database.get_video (database.py lines 132-165): SELECT by id;
its blanket `except` clause turns a store failure into None. -/
def get_video (store_up : Bool) (table : List VideoRow) (video_id : String) :
    Option VideoRow :=
  if store_up then table.find? (fun r => r.id = video_id) else none

/-- Project5001Database.video_exists (database.py lines 167-169). -/
def video_exists (store_up : Bool) (table : List VideoRow) (video_id : String) : Bool :=
  (get_video store_up table video_id).isSome

/-- A playlist entry as produced by AdvancedHarvester.get_playlist_videos
(harvester_v2.py lines 67-79). -/
structure VideoMeta where
  id : String
  title : String
  uploader : String
  playlist_url : String
deriving DecidableEq

/-- AdvancedHarvester.get_unseen_videos (harvester_v2.py lines 90-99): keep
the candidates whose id is not yet in the `videos` table.  This is the only
deduplication the harvester performs: the batch itself is not deduplicated. -/
def get_unseen_videos (store_up : Bool) (table : List VideoRow) (videos : List VideoMeta) :
    List VideoMeta :=
  videos.filter (fun v => ! video_exists store_up table v.id)

/-- The multiset of item ids AdvancedHarvester.harvest_playlist submits to
download_video (harvester_v2.py lines 389-394): one download task per element
of the unseen list, in order. -/
def harvest_downloads (store_up : Bool) (table : List VideoRow) (videos : List VideoMeta) :
    List String :=
  (get_unseen_videos store_up table videos).map (fun v => v.id)

/-- The outcome of one worker, as observed by harvest_playlist through
`future.result()` (harvester_v2.py lines 397-409): either download_video
returned (with or without a result), or the worker raised an exception. -/
inductive ItemResult where
  | ok (downloaded : Bool)
  | exc (msg : String)
deriving DecidableEq

/-- AdvancedHarvester.harvest_playlist (harvester_v2.py lines 368-415),
viewed through its error flow.  Every per-item `future.result()` sits inside
a `try`/`except Exception` that logs and continues, and every Record Store
operation reached from here (get_video via video_exists, add_video inside
download_video) catches its own exceptions internally, so the function only
ever returns normally; the Except return type records that no code path
constructs an error. -/
def harvest_playlist (store_up : Bool) (table : List VideoRow)
    (item_result : String → ItemResult) (videos : List VideoMeta) :
    Except String Nat :=
  let unseen := get_unseen_videos store_up table videos
  Except.ok (unseen.foldl (fun acc v =>
    match item_result v.id with
    | ItemResult.ok true => acc + 1
    | ItemResult.ok false => acc
    | ItemResult.exc _ => acc) 0)

/-- What one call of AdvancedHarvester._attempt_download reports back to the
quality-ladder loop (harvester_v2.py lines 205-237): success, or the failure
signals fed to handle_download_failure. -/
structure AttemptOutcome where
  success : Bool
  error : String
  http_status : Option Nat
  download_speed : Option ℚ

/-- The quality-ladder loop of AdvancedHarvester.download_video
(harvester_v2.py lines 205-237), instrumented to return the list of
(tier index, device id) pairs attempted and whether the item succeeded.
`outcome i` is what _attempt_download reports at tier `i` (each tier is
attempted at most once, because on a successful rotation the `continue`
advances the `for` loop to the next tier).  On failure the loop consults
handle_download_failure: True continues with the next tier, False breaks. -/
def download_video_go (outcome : Nat → AttemptOutcome) (rotation_enabled : Bool)
    (now : Nat) : List Nat → DetectorState → List (Nat × String) × Bool
  | [], _ => ([], false)
  | i :: rest, st =>
    if (outcome i).success then ([(i, st.current_device_id)], true)
    else
      if (handle_download_failure st rotation_enabled now (outcome i).error
          (outcome i).http_status (outcome i).download_speed).2 then
        ((i, st.current_device_id) ::
          (download_video_go outcome rotation_enabled now rest
            (handle_download_failure st rotation_enabled now (outcome i).error
              (outcome i).http_status (outcome i).download_speed).1).1,
         (download_video_go outcome rotation_enabled now rest
            (handle_download_failure st rotation_enabled now (outcome i).error
              (outcome i).http_status (outcome i).download_speed).1).2)
      else ([(i, st.current_device_id)], false)

/-- The quality ladder of download_video (harvester_v2.py lines 198-203),
by tier index: 0 = "256k", 1 = "192k", 2 = "128k", 3 = "96k". -/
def download_video_attempts (outcome : Nat → AttemptOutcome) (rotation_enabled : Bool)
    (now : Nat) (st : DetectorState) : List (Nat × String) × Bool :=
  download_video_go outcome rotation_enabled now [0, 1, 2, 3] st

/-! ### Helper lemmas -/

/-- Char.toLower leaves every character below ASCII 65 (in particular every
digit and every space) unchanged. -/
theorem char_toLower_of_nonletter {c : Char} (h : c.toNat < 65) :
    Char.toLower c = c := by
  show (if c.toNat ≥ 65 ∧ c.toNat ≤ 90 then Char.ofNat (c.toNat + 32) else c) = c
  rw [if_neg (by omega)]

/-- If lower-casing a character lands below ASCII 97 it was not an upper-case
letter, hence it was left unchanged. -/
theorem char_toLower_of_lt {c : Char} (h : (Char.toLower c).toNat < 97) :
    Char.toLower c = c := by
  by_cases hc : c.toNat ≥ 65 ∧ c.toNat ≤ 90
  · exfalso
    have hshape : Char.toLower c =
        (if c.toNat ≥ 65 ∧ c.toNat ≤ 90 then Char.ofNat (c.toNat + 32) else c) := rfl
    rw [hshape, if_pos hc] at h
    have hvalid : Nat.isValidChar (c.toNat + 32) := Or.inl (by omega)
    have hv : (Char.ofNat (c.toNat + 32)).toNat = c.toNat + 32 := by
      unfold Char.ofNat
      rw [dif_pos hvalid]
      rfl
    rw [hv] at h
    omega
  · show (if c.toNat ≥ 65 ∧ c.toNat ≤ 90 then Char.ofNat (c.toNat + 32) else c) = c
    rw [if_neg hc]

/-- A character list that lower-cases to a list of sub-65 characters already
was that list. -/
theorem map_toLower_eq_self {m pat : List Char} (hpat : ∀ c ∈ pat, c.toNat < 65)
    (h : m.map Char.toLower = pat) : m = pat := by
  induction m generalizing pat with
  | nil => exact h
  | cons c m' ih =>
    subst h
    have hhead : Char.toLower c = c := by
      apply char_toLower_of_lt
      have := hpat (Char.toLower c) (List.mem_cons_self _ _)
      omega
    have htail : m' = m'.map Char.toLower :=
      ih (fun x hx => hpat x (List.mem_cons_of_mem _ hx)) rfl
    rw [List.map_cons, hhead, ← htail]

/-- Searching for a pattern of sub-65 characters (digits, spaces) in a
lower-cased text is the same as searching the original text: lower-casing
fixes such characters and maps nothing onto them. -/
theorem isInfix_map_toLower_iff (pat l : List Char) (hpat : ∀ c ∈ pat, c.toNat < 65) :
    pat <:+: l.map Char.toLower ↔ pat <:+: l := by
  constructor
  · rintro ⟨s, t, h⟩
    have h' : List.map Char.toLower l = (s ++ pat) ++ t := by
      rw [← h, List.append_assoc]
    obtain ⟨l₁, l₂, hl, hm1, _⟩ := List.map_eq_append_iff.mp h'
    obtain ⟨a, b, hab, _, hmb⟩ := List.map_eq_append_iff.mp hm1
    have hb : b = pat := map_toLower_eq_self hpat hmb
    exact ⟨a, l₂, by rw [← hb, ← hab, ← hl]⟩
  · intro h
    have h2 := List.IsInfix.map Char.toLower h
    have h3 : pat.map Char.toLower = pat := by
      have : pat.map Char.toLower = pat.map id :=
        List.map_congr_left (fun c hc => char_toLower_of_nonletter (hpat c hc))
      rw [this, List.map_id]
    rwa [h3] at h2

/-- strContains on the lower-cased text equals strContains on the original
text, for patterns made of sub-65 characters. -/
theorem strContains_lower_eq (s pat : String) (hpat : ∀ c ∈ pat.data, c.toNat < 65) :
    strContains (str_lower s) pat = strContains s pat := by
  unfold strContains str_lower
  exact decide_eq_decide.mpr (isInfix_map_toLower_iff pat.data s.data hpat)

/-- Containment is antitone in the pattern: if the text contains the longer
pattern it contains the shorter one. -/
theorem strContains_of_larger {p q : String} (hpq : p.data <:+: q.data) {s : String}
    (h : strContains s q = true) : strContains s p = true := by
  unfold strContains at *
  exact decide_eq_true (List.IsInfix.trans hpq (of_decide_eq_true h))

/-- Absorption for the redundant double checks of the source's elif chain
('quota exceeded' or 'quota', 'download failed' or 'failed'). -/
theorem bool_or_absorb {a b : Bool} (h : a = true → b = true) : (a || b) = b := by
  cases a with
  | false => rfl
  | true => rw [h rfl]; rfl

/-- With pairwise distinct keys, two members of a list with the same key are
the same element. -/
theorem eq_of_mem_of_nodup_map {α β : Type} {f : α → β} {l : List α}
    (hn : (l.map f).Nodup) {a b : α} (ha : a ∈ l) (hb : b ∈ l) (hf : f a = f b) :
    a = b := by
  induction l with
  | nil => cases ha
  | cons c l' ih =>
    rw [List.map_cons, List.nodup_cons] at hn
    rcases List.mem_cons.mp ha with ha' | ha' <;>
      rcases List.mem_cons.mp hb with hb' | hb'
    · rw [ha', hb']
    · exact absurd (List.mem_map.mpr ⟨b, hb', (ha' ▸ hf).symm⟩) hn.1
    · exact absurd (List.mem_map.mpr ⟨a, ha', hb' ▸ hf⟩) hn.1
    · exact ih hn.2 ha' hb'

/-- The first element of an insertion-sorted list is r-below every element of
the original list. -/
theorem head_insertionSort_min {r : Device → Device → Prop} [DecidableRel r]
    [IsTotal Device r] [IsTrans Device r] [IsRefl Device r] {l : List Device}
    {d : Device} (h : (List.insertionSort r l).head? = some d) :
    ∀ e ∈ l, r d e := by
  intro e he
  have hs : List.Sorted r (List.insertionSort r l) := List.sorted_insertionSort r l
  have he' : e ∈ List.insertionSort r l := ((List.perm_insertionSort r l).mem_iff).mpr he
  cases hl : List.insertionSort r l with
  | nil => rw [hl] at h; cases h
  | cons a tl =>
    rw [hl] at h he' hs
    have had : a = d := by
      simpa using h
    subst had
    rcases List.mem_cons.mp he' with he'' | he''
    · rw [he'']
      exact refl_of r a
    · exact (List.sorted_cons.mp hs).1 e he''

/-- The status block of the source classifier agrees with the spec's step 1:
only 429, 403 and 503 short-circuit; every other status (0 included) falls
through. -/
theorem detectStatus_eq_spec (s : Option Nat) :
    detectStatus s = (spec_status s).map kindCode := by
  unfold detectStatus spec_status
  cases s with
  | none => rfl
  | some n =>
    simp only [Option.some.injEq]
    split_ifs <;> simp_all <;> rfl

/-- The source's error-text elif chain computes exactly the spec's ordered
case-insensitive scan (spec section 4.1, step 2). -/
theorem detect_text_scan_eq_spec (e : String) :
    detect_text_scan e = (spec_scan e).map kindCode := by
  unfold detect_text_scan spec_scan
  rw [strContains_lower_eq e "429" (by decide),
    strContains_lower_eq e "403" (by decide),
    strContains_lower_eq e "503" (by decide),
    bool_or_absorb (strContains_of_larger (p := "quota") (q := "quota exceeded") (by decide)),
    bool_or_absorb (strContains_of_larger (p := "failed") (q := "download failed") (by decide))]
  split_ifs <;> rfl

/-! ### Claim theorems -/

/-- C5: for every input, detect_rate_limit follows the documented precedence:
an http_status of 429/403/503 maps to TooManyRequests/Forbidden/
ServiceUnavailable; otherwise the error text is scanned case-insensitively in
the documented substring order and the corresponding kind returned; unmatched
text with no status code and throughput at or above 10,000 B/s returns None.
The function is a pure Lean function of its three arguments, so it is
deterministic and touches no Record Store state by construction. -/
theorem detect_rate_limit_follows_documented_precedence :
    (∀ (e : String) (s : Option Nat) (v : Option ℚ),
      detect_rate_limit e s v =
        match spec_status s with
        | some k => some (kindCode k)
        | none =>
          match spec_scan e with
          | some k => some (kindCode k)
          | none =>
            match v with
            | some q => if q ≠ 0 ∧ q < 10000 then some "speed_drop" else none
            | none => none) ∧
    (∀ (e : String) (q : ℚ), spec_scan e = none → 10000 ≤ q →
      detect_rate_limit e none (some q) = none) := by
  constructor
  · intro e s v
    unfold detect_rate_limit
    rw [detectStatus_eq_spec, detect_text_scan_eq_spec]
    cases spec_status s with
    | some k => rfl
    | none =>
      cases spec_scan e with
      | some k => rfl
      | none => rfl
  · intro e q hscan hq
    unfold detect_rate_limit
    rw [detect_text_scan_eq_spec, hscan]
    show (if q ≠ 0 ∧ q < 10000 then (some "speed_drop" : Option String) else none) = none
    rw [if_neg]
    rintro ⟨-, h2⟩
    exact absurd hq (not_le.mpr h2)

/-- Witness for C5: a concrete unmatched text with throughput 12,000 B/s
classifies as None. -/
theorem detect_rate_limit_follows_documented_precedence_witness :
    spec_scan "all good" = none ∧ (10000 : ℚ) ≤ 12000 ∧
      detect_rate_limit "all good" none (some 12000) = none :=
  ⟨by decide, by decide,
    detect_rate_limit_follows_documented_precedence.2 "all good" 12000 (by decide) (by decide)⟩

/-- C6 counterexample: a present throughput of 0 B/s (below 10,000) with no
matching status or text does NOT classify as SpeedDegraded — the source's
`if download_speed and ...` truthiness test treats 0 like an absent value, so
the classifier returns None. -/
theorem speed_zero_returns_none_counterexample :
    detect_rate_limit "" none (some 0) ≠ some "speed_drop" ∧
      detect_rate_limit "" none (some 0) = none := by
  constructor
  · decide
  · decide

/-- C6 amended: when http_status and error text match no pattern and the
throughput is present, NONZERO and below 10,000 bytes/sec, the classifier
returns SpeedDegraded. -/
theorem speed_degraded_amended (e : String) (s : Option Nat) (q : ℚ)
    (hst : detectStatus s = none) (hsc : detect_text_scan e = none)
    (h0 : q ≠ 0) (hlt : q < 10000) :
    detect_rate_limit e s (some q) = some "speed_drop" := by
  unfold detect_rate_limit
  rw [hst, hsc]
  show (if q ≠ 0 ∧ q < 10000 then (some "speed_drop" : Option String) else none) =
    some "speed_drop"
  rw [if_pos ⟨h0, hlt⟩]

/-- Witness for the amended C6: throughput 4,000 B/s with empty error text
classifies as SpeedDegraded (the spec's section 8 scenario). -/
theorem speed_degraded_amended_witness :
    detectStatus none = none ∧ detect_text_scan "" = none ∧ (4000 : ℚ) ≠ 0 ∧
      (4000 : ℚ) < 10000 ∧ detect_rate_limit "" none (some 4000) = some "speed_drop" :=
  ⟨rfl, by decide, by decide, by decide,
    speed_degraded_amended "" none 4000 rfl (by decide) (by decide) (by decide)⟩

/-- C10: a supplied http_status outside {429, 403, 503} (0 included — Python
truthiness skips the whole status block for it) never decides the result:
classification proceeds exactly as if no status were present. -/
theorem unmatched_status_falls_through (e : String) (v : Option ℚ) (s : Nat)
    (h1 : s ≠ 429) (h2 : s ≠ 403) (h3 : s ≠ 503) :
    detect_rate_limit e (some s) v = detect_rate_limit e none v := by
  have hst : detectStatus (some s) = none := by
    show (if s = 0 then none
      else if s = 429 then some "http_429"
      else if s = 403 then some "http_403"
      else if s = 503 then some "http_503"
      else none : Option String) = none
    split_ifs
    all_goals rfl
  unfold detect_rate_limit
  rw [hst]
  rfl

/-- Witness for C10: status 500 behaves exactly like no status. -/
theorem unmatched_status_falls_through_witness :
    (500 : Nat) ≠ 429 ∧ (500 : Nat) ≠ 403 ∧ (500 : Nat) ≠ 503 ∧
      detect_rate_limit "x" (some 500) none = detect_rate_limit "x" none none :=
  ⟨by decide, by decide, by decide,
    unmatched_status_falls_through "x" none 500 (by decide) (by decide) (by decide)⟩

/-- C1: the database's record_rate_limit hard-codes a 5-minute cooldown
(database.py line 399, `timedelta(minutes=5)`) for every event type, even
though the per-kind cooldown table (rate_limiter.py cooldown_periods,
mirrored by the spec's section 4.2 table) prescribes 30 minutes for
http_429: on a TooManyRequests event the device's cooldown_until becomes
now + 5, not now + 30.  The RateLimitEvent append, the rate_limit_count
increment and last_rate_limit = now all do happen as claimed. -/
theorem record_rate_limit_hardcodes_five_minutes :
    record_rate_limit [⟨"A", "phone", "main", true, some 10, 0, none, none, 0, 0⟩] []
        "A" "http_429" (some "HTTP 429") 100 =
      ([⟨"A", "phone", "main", true, some 10, 1, some 100, some 105, 0, 0⟩],
       [⟨"A", "http_429", some "HTTP 429"⟩]) ∧
    cooldown_periods "http_429" = some 30 ∧
    spec_cooldown_table FailureKind.TooManyRequests = 30 ∧
    (105 : Nat) ≠ 100 + 30 := by
  refine ⟨?_, rfl, rfl, by decide⟩
  decide

/-- C9: add_video is an upsert on the primary key — after two calls with the
same id the table holds exactly one row for that id, carrying the second
call's field values; and add_video preserves global uniqueness of ids. -/
theorem add_video_upsert_unique :
    (∀ (table : List VideoRow) (i t1 a1 f1 p1 : String) (fs1 d1 : Option Nat)
        (q1 : Option String) (n1 : Nat) (t2 a2 f2 p2 : String) (fs2 d2 : Option Nat)
        (q2 : Option String) (n2 : Nat),
      (add_video (add_video table i t1 a1 f1 p1 fs1 d1 q1 n1)
          i t2 a2 f2 p2 fs2 d2 q2 n2).filter (fun r => r.id = i) =
        [⟨i, t2, a2, f2, p2, fs2, d2, q2, n2, n2⟩] ∧
      (add_video (add_video table i t1 a1 f1 p1 fs1 d1 q1 n1)
          i t2 a2 f2 p2 fs2 d2 q2 n2).countP (fun r => r.id = i) = 1) ∧
    (∀ (table : List VideoRow) (i t a f p : String) (fs d : Option Nat)
        (q : Option String) (n : Nat),
      (table.map (fun r => r.id)).Nodup →
        ((add_video table i t a f p fs d q n).map (fun r => r.id)).Nodup) := by
  constructor
  · intro table i t1 a1 f1 p1 fs1 d1 q1 n1 t2 a2 f2 p2 fs2 d2 q2 n2
    constructor
    · unfold add_video
      rw [List.filter_append, List.filter_filter]
      have hnil : ∀ (T : List VideoRow),
          T.filter (fun a => decide (a.id = i) && decide (a.id ≠ i)) = [] := by
        intro T
        apply List.filter_eq_nil_iff.mpr
        intro a _
        simp
      rw [hnil]
      simp
    · unfold add_video
      rw [List.countP_append, List.countP_filter]
      have hzero : ∀ (T : List VideoRow),
          T.countP (fun a => decide (a.id = i) && decide (a.id ≠ i)) = 0 := by
        intro T
        apply List.countP_eq_zero.mpr
        intro a _
        simp
      rw [hzero]
      simp
  · intro table i t a f p fs d q n hnodup
    unfold add_video
    rw [List.map_append, List.nodup_append]
    refine ⟨?_, by simp, ?_⟩
    · exact List.Nodup.sublist (List.Sublist.map _ (List.filter_sublist table)) hnodup
    · simp only [List.map_cons, List.map_nil, List.disjoint_singleton]
      intro hmem
      obtain ⟨r, hr, hrid⟩ := List.mem_map.mp hmem
      have := (List.mem_filter.mp hr).2
      simp only [decide_eq_true_eq] at this
      exact this hrid

/-- Witness for C9: two concrete upserts with the same id leave one row, and
uniqueness is preserved from the empty table. -/
theorem add_video_upsert_unique_witness :
    (([] : List VideoRow).map (fun r => r.id)).Nodup ∧
      ((add_video [] "X" "t" "a" "f" "p" none none none 2).map (fun r => r.id)).Nodup ∧
      (add_video (add_video [] "X" "t1" "a1" "f1" "p1" none none none 1)
          "X" "t2" "a2" "f2" "p2" none none none 2).countP (fun r => r.id = "X") = 1 :=
  ⟨by decide,
    add_video_upsert_unique.2 [] "X" "t" "a" "f" "p" none none none 2 (by decide),
    (add_video_upsert_unique.1 [] "X" "t1" "a1" "f1" "p1" none none none 1
      "t2" "a2" "f2" "p2" none none none 2).2⟩

/-- C3: the harvester dedups only against the store, not within the batch.
With "Y" already in the videos table and a batch [X, X, Y], the ids submitted
for download are ["X", "X"]: the stored id "Y" is downloaded zero times (that
half of the claim holds), but the in-batch duplicate "X" is submitted — and
hence downloaded — twice, violating the claimed at-most-once bound.
get_unseen_videos filters each candidate against the store independently and
harvest_playlist submits every survivor to its own download task
(harvester_v2.py lines 389-394); nothing removes the duplicate. -/
theorem harvest_submits_in_batch_duplicates_twice :
    harvest_downloads true [⟨"Y", "ty", "ay", "fy", "py", none, none, none, 0, 0⟩]
        [⟨"X", "tx", "u", "p"⟩, ⟨"X", "tx", "u", "p"⟩, ⟨"Y", "ty2", "u", "p"⟩] =
      ["X", "X"] ∧
    (harvest_downloads true [⟨"Y", "ty", "ay", "fy", "py", none, none, none, 0, 0⟩]
        [⟨"X", "tx", "u", "p"⟩, ⟨"X", "tx", "u", "p"⟩, ⟨"Y", "ty2", "u", "p"⟩]).count "X" = 2 ∧
    (harvest_downloads true [⟨"Y", "ty", "ay", "fy", "py", none, none, none, 0, 0⟩]
        [⟨"X", "tx", "u", "p"⟩, ⟨"X", "tx", "u", "p"⟩, ⟨"Y", "ty2", "u", "p"⟩]).count "Y" = 0 := by
  refine ⟨?_, ?_, ?_⟩ <;> decide

/-- C4 counterexample: with the persistence layer unavailable
(store_up = false) and a nonempty batch, harvest_playlist still returns
normally (Except.ok 0) instead of aborting and surfacing the store failure:
every store operation it reaches catches its own exceptions. -/
theorem harvest_playlist_swallows_store_failure :
    harvest_playlist false [] (fun _ => ItemResult.ok false) [⟨"X", "t", "u", "p"⟩] =
      Except.ok 0 := rfl

/-- C4 amended: per-item failures never propagate out of harvest_playlist —
and neither does a Record Store failure: the batch always completes normally
with a count, because future.result() is wrapped in a logging try/except and
the store layer (get_video, add_video) catches its own exceptions and reports
via return values. -/
theorem harvest_playlist_never_raises (store_up : Bool) (table : List VideoRow)
    (item_result : String → ItemResult) (videos : List VideoMeta) :
    ∃ n, harvest_playlist store_up table item_result videos = Except.ok n :=
  ⟨_, rfl⟩

/-- C8 counterexample: an ordinary failure (classification None) does not
leave last_used unchanged — update_device_usage(..., success=False) sets
last_used = now in the same UPDATE that increments failure_count
(database.py lines 377-381).  Device "A" starts with last_used = none and
ends with last_used = some 7. -/
theorem ordinary_failure_touches_last_used :
    handle_download_failure
        ⟨[⟨"A", "phone", "main", true, none, 0, none, none, 0, 0⟩], [], "A"⟩
        true 7 "weird" none none =
      (⟨[⟨"A", "phone", "main", true, some 7, 0, none, none, 0, 1⟩], [], "A"⟩, false) ∧
    (some 7 : Option Nat) ≠ none := by
  refine ⟨?_, by decide⟩
  decide

/-- C8 amended: on a failure that classifies as None, handle_download_failure
increments the current device's failure_count AND sets its last_used to now;
it sets no cooldown and leaves rate_limit_count, success_count,
last_rate_limit, cooldown_until, every other device, the event list and the
current-device pointer unchanged (the record-update below names exactly the
two fields that change). -/
theorem ordinary_failure_frame (st : DetectorState) (rot : Bool) (now : Nat)
    (e : String) (hs : Option Nat) (sp : Option ℚ)
    (h : detect_rate_limit e hs sp = none) :
    handle_download_failure st rot now e hs sp =
      ({ st with devices := st.devices.map (fun d =>
          if d.device_id = st.current_device_id then
            { d with last_used := some now, failure_count := d.failure_count + 1 }
          else d) }, false) := by
  unfold handle_download_failure
  rw [h]
  rfl

/-- Witness for the amended C8: the concrete single-device state, evaluated. -/
theorem ordinary_failure_frame_witness :
    detect_rate_limit "weird" none none = none ∧
      handle_download_failure
          ⟨[⟨"A", "phone", "main", true, none, 0, none, none, 0, 0⟩], [], "A"⟩
          true 7 "weird" none none =
        (⟨[⟨"A", "phone", "main", true, some 7, 0, none, none, 0, 1⟩], [], "A"⟩, false) :=
  ⟨by decide,
    ordinary_failure_frame ⟨[⟨"A", "phone", "main", true, none, 0, none, none, 0, 0⟩], [], "A"⟩
      true 7 "weird" none none (by decide)⟩

/-- C2 counterexample: two healthy devices A (current) and B; tier 0 fails
with a 429, rotation succeeds and yields B — but the ladder then attempts
tier 1 on B, never tier 0 again (the claimed same-tier retry (0, "B") does
not occur).  Tier 1 then fails with an unclassifiable error on B and the
item is abandoned: the claimed fall-through attempt (2, "B") on the same
device does not occur either.  The `continue` in download_video advances the
`for` loop over quality_settings, and an un-rotated failure `break`s. -/
theorem download_ladder_counterexample :
    (download_video_attempts
        (fun i => if i = 0 then ⟨false, "HTTP Error 429: Too Many Requests", none, none⟩
          else ⟨false, "weird", none, none⟩)
        true 100
        ⟨[⟨"A", "a", "main", true, some 10, 0, none, none, 0, 0⟩,
          ⟨"B", "b", "main", true, some 20, 0, none, none, 0, 0⟩], [], "A"⟩).1 =
      [(0, "A"), (1, "B")] ∧
    ((0 : Nat), "B") ∉ [((0 : Nat), "A"), (1, "B")] ∧
    ((2 : Nat), "B") ∉ [((0 : Nat), "A"), (1, "B")] := by
  refine ⟨?_, by decide, by decide⟩
  decide

/-- C2 amended: the quality-ladder loop never retries a tier — the attempted
tier indices always form an initial segment of the remaining ladder — and on
a failed attempt it consults handle_download_failure: if that reports a
successful rotation the loop proceeds to the NEXT lower tier under the
rotated state, and otherwise (classification None, rotation disabled, or no
device available) it abandons the item immediately. -/
theorem download_ladder_policy :
    (∀ (outcome : Nat → AttemptOutcome) (rot : Bool) (now : Nat) (tiers : List Nat)
        (st : DetectorState),
      (download_video_go outcome rot now tiers st).1.map Prod.fst =
        tiers.take (download_video_go outcome rot now tiers st).1.length) ∧
    (∀ (outcome : Nat → AttemptOutcome) (rot : Bool) (now : Nat) (i : Nat)
        (rest : List Nat) (st st1 : DetectorState),
      (outcome i).success = false →
      handle_download_failure st rot now (outcome i).error (outcome i).http_status
          (outcome i).download_speed = (st1, true) →
      download_video_go outcome rot now (i :: rest) st =
        ((i, st.current_device_id) :: (download_video_go outcome rot now rest st1).1,
         (download_video_go outcome rot now rest st1).2)) ∧
    (∀ (outcome : Nat → AttemptOutcome) (rot : Bool) (now : Nat) (i : Nat)
        (rest : List Nat) (st st1 : DetectorState),
      (outcome i).success = false →
      handle_download_failure st rot now (outcome i).error (outcome i).http_status
          (outcome i).download_speed = (st1, false) →
      download_video_go outcome rot now (i :: rest) st =
        ([(i, st.current_device_id)], false)) := by
  refine ⟨?_, ?_, ?_⟩
  · intro outcome rot now tiers
    induction tiers with
    | nil => intro st; rfl
    | cons i rest ih =>
      intro st
      by_cases hsucc : (outcome i).success
      · simp [download_video_go, hsucc]
      · by_cases hrot : (handle_download_failure st rot now (outcome i).error
            (outcome i).http_status (outcome i).download_speed).2
        · simp only [download_video_go, hsucc, hrot, Bool.false_eq_true, if_false, if_true,
            List.map_cons, List.length_cons, List.take_succ_cons, List.cons.injEq]
          exact ⟨trivial, ih _⟩
        · simp [download_video_go, hsucc, hrot]
  · intro outcome rot now i rest st st1 hsucc hrot
    simp [download_video_go, hsucc, hrot]
  · intro outcome rot now i rest st st1 hsucc hrot
    simp [download_video_go, hsucc, hrot]

/-- Witness for the amended C2: a single unclassifiable failure abandons the
item after one attempt. -/
theorem download_ladder_policy_witness :
    ((fun _ : Nat => (⟨false, "weird", none, none⟩ : AttemptOutcome)) 0).success = false ∧
      handle_download_failure ⟨[], [], "A"⟩ false 9 "weird" none none =
        (⟨[], [], "A"⟩, false) ∧
      download_video_go (fun _ => ⟨false, "weird", none, none⟩) false 9 [0, 1]
          ⟨[], [], "A"⟩ = ([(0, "A")], false) :=
  ⟨rfl, by decide,
    download_ladder_policy.2.2 (fun _ => ⟨false, "weird", none, none⟩) false 9 0 [1]
      ⟨[], [], "A"⟩ ⟨[], [], "A"⟩ rfl (by decide)⟩

/-- C7: get_next_available_device (with device ids unique, as the
device_rotation primary key guarantees) never returns an inactive device or
one whose cooldown_until lies strictly after now, and any device it returns
is a candidate (active, not in cooldown) that is minimal for the Python sort
key (last_used ascending with null as the epoch, ties by lower
rate_limit_count) among all candidates; when no candidate exists it returns
none, and when at least one candidate exists it does return a device. -/
theorem select_next_device_spec :
    ∀ (table : List Device) (now : Nat),
      ((table.map (fun d => d.device_id)).Nodup →
        ∀ d, get_next_available_device table now = some d →
          d.is_active = true ∧
          (∀ t, d.cooldown_until = some t → ¬ now < t) ∧
          d ∈ get_available_devices table ∧
          (∀ e ∈ get_available_devices table,
            is_device_in_cooldown table now e.device_id = false → pyLe d e)) ∧
      ((get_available_devices table).filter
          (fun d => ! is_device_in_cooldown table now d.device_id) = [] →
        get_next_available_device table now = none) ∧
      ((get_available_devices table).filter
          (fun d => ! is_device_in_cooldown table now d.device_id) ≠ [] →
        ∃ d, get_next_available_device table now = some d) := by
  intro table now
  refine ⟨?_, ?_, ?_⟩
  · intro hnodup d hd
    unfold get_next_available_device at hd
    by_cases hemp : (get_available_devices table).isEmpty
    · rw [if_pos hemp] at hd; cases hd
    · rw [if_neg hemp] at hd
      by_cases hemp2 : ((get_available_devices table).filter
          (fun d => ! is_device_in_cooldown table now d.device_id)).isEmpty
      · rw [if_pos hemp2] at hd; cases hd
      · rw [if_neg hemp2] at hd
        have hdmem : d ∈ List.insertionSort pyLe ((get_available_devices table).filter
            (fun d => ! is_device_in_cooldown table now d.device_id)) :=
          List.mem_of_mem_head? hd
        have hdA : d ∈ (get_available_devices table).filter
            (fun d => ! is_device_in_cooldown table now d.device_id) :=
          ((List.perm_insertionSort pyLe _).mem_iff).mp hdmem
        obtain ⟨hdgad, hdcoolb⟩ := List.mem_filter.mp hdA
        have hdcool : is_device_in_cooldown table now d.device_id = false := by
          simpa using hdcoolb
        have hdact : d ∈ List.filter (fun x => x.is_active) table := by
          have hmem : d ∈ get_available_devices table := hdgad
          unfold get_available_devices at hmem
          exact ((List.perm_insertionSort sqlLe _).mem_iff).mp hmem
        have hact : d.is_active = true := by
          simpa using (List.mem_filter.mp hdact).2
        have hnodgad : ((get_available_devices table).map (fun x => x.device_id)).Nodup := by
          have hperm : (get_available_devices table).Perm
              (List.filter (fun x => x.is_active) table) := by
            unfold get_available_devices
            exact List.perm_insertionSort sqlLe _
          have hsub : ((List.filter (fun x => x.is_active) table).map
              (fun x => x.device_id)).Nodup :=
            List.Nodup.sublist (List.Sublist.map _ (List.filter_sublist table)) hnodup
          exact ((hperm.map (fun x => x.device_id)).nodup_iff).mpr hsub
        refine ⟨hact, ?_, hdgad, ?_⟩
        · intro t ht hlt
          unfold is_device_in_cooldown at hdcool
          cases hfind : (get_available_devices table).find?
              (fun x => x.device_id = d.device_id) with
          | none =>
            have hex : ((get_available_devices table).find?
                (fun x => decide (x.device_id = d.device_id))).isSome = true :=
              List.find?_isSome.mpr ⟨d, hdgad, by simp⟩
            rw [hfind] at hex
            cases hex
          | some x0 =>
            have hx0p : x0.device_id = d.device_id := by
              simpa using List.find?_some hfind
            have hx0mem : x0 ∈ get_available_devices table :=
              List.mem_of_find?_eq_some hfind
            have hx0d : x0 = d := eq_of_mem_of_nodup_map hnodgad hx0mem hdgad hx0p
            rw [hfind, hx0d] at hdcool
            simp only [ht, decide_eq_false_iff_not] at hdcool
            exact hdcool hlt
        · intro e hegad hecool
          have heA : e ∈ (get_available_devices table).filter
              (fun x => ! is_device_in_cooldown table now x.device_id) :=
            List.mem_filter.mpr ⟨hegad, by simp [hecool]⟩
          exact head_insertionSort_min hd e heA
  · intro h
    unfold get_next_available_device
    by_cases hemp : (get_available_devices table).isEmpty
    · rw [if_pos hemp]
    · rw [if_neg hemp, if_pos (by rw [List.isEmpty_iff]; exact h)]
  · intro h
    unfold get_next_available_device
    have hgadne : ¬ (get_available_devices table).isEmpty = true := by
      intro hempty
      rw [List.isEmpty_iff] at hempty
      rw [hempty] at h
      exact h rfl
    have hfilterne : ¬ ((get_available_devices table).filter
        (fun d => ! is_device_in_cooldown table now d.device_id)).isEmpty = true := by
      intro hempty
      rw [List.isEmpty_iff] at hempty
      exact h hempty
    rw [if_neg hgadne, if_neg hfilterne]
    have hsne : List.insertionSort pyLe ((get_available_devices table).filter
        (fun d => ! is_device_in_cooldown table now d.device_id)) ≠ [] := by
      intro hnil
      have hperm := List.perm_insertionSort pyLe ((get_available_devices table).filter
        (fun d => ! is_device_in_cooldown table now d.device_id))
      rw [hnil] at hperm
      exact h hperm.symm.eq_nil
    exact ⟨_, List.head?_eq_head hsne⟩

/-- Witness for C7: a one-device table where the single healthy device is a
candidate, a device is therefore returned, and it is that device. -/
theorem select_next_device_spec_witness :
    ([(⟨"A", "phone", "main", true, none, 0, none, none, 0, 0⟩ : Device)].map
        (fun d => d.device_id)).Nodup ∧
      get_next_available_device [⟨"A", "phone", "main", true, none, 0, none, none, 0, 0⟩] 0 =
        some ⟨"A", "phone", "main", true, none, 0, none, none, 0, 0⟩ ∧
      (⟨"A", "phone", "main", true, none, 0, none, none, 0, 0⟩ : Device).is_active = true ∧
      (∃ d, get_next_available_device [⟨"A", "phone", "main", true, none, 0, none, none, 0, 0⟩] 0 =
        some d) :=
  ⟨by decide, by decide,
    ((select_next_device_spec [⟨"A", "phone", "main", true, none, 0, none, none, 0, 0⟩] 0).1
      (by decide) ⟨"A", "phone", "main", true, none, 0, none, none, 0, 0⟩ (by decide)).1,
    (select_next_device_spec [⟨"A", "phone", "main", true, none, 0, none, none, 0, 0⟩] 0).2.2
      (by decide)⟩

end Project5001
